import Mathlib

/-!
Shallow embedding of the ZMK split-keyboard battery monitor
(`src/zmk_battery/battery_monitor.py`, `src/zmk_battery/system_tray.py`)
and proofs about it.

Modelling conventions:
* The BLE transport (bleak) is modelled by a `Transport` record of pure
  behaviours: the result of `BleakScanner.find_device_by_address`, the value
  of `client.is_connected` right after `client.connect()`, the service list
  returned by `client.get_services()`, and the per-characteristic outcomes
  of `client.start_notify` / `client.read_gatt_char`.  The source addresses
  characteristics through a UUID string derived injectively from the handle
  (`f"0000\x7bhandle:x\x7d-0000-1000-8000-00805f9b34fb"`), so the transport is
  keyed directly by the handle.
* `self._batteries` is a Python dict keyed by the characteristic handle; it
  is modelled as an association list with Python-dict assignment semantics
  (`dictInsert` replaces in place, otherwise appends).
* Exceptions become explicit `Except` / sum results.  `client.disconnect()`
  and the fire-and-forget disconnect task are assumed not to throw, so the
  generic `except` at the bottom of `BatteryMonitor.connect` (which in the
  source converts unexpected errors to `DEVICE_NOT_FOUND`) is unreachable in
  the model and not represented.
* Whether the BLE link opened by a connect attempt is still open when the
  attempt finishes is returned as the `linkOpen` flag of `ConnectOutput`.
-/

namespace ZmkBattery

/-- `BATTERY_SERVICE_UUID` from `battery_monitor.py`. -/
def BATTERY_SERVICE_UUID : String := "0000180f-0000-1000-8000-00805f9b34fb"

/-- `BATTERY_LEVEL_CHAR_UUID` from `battery_monitor.py`. -/
def BATTERY_LEVEL_CHAR_UUID : String := "00002a19-0000-1000-8000-00805f9b34fb"

/-- `BATTERY_DEFAULT_NAME` from `battery_monitor.py`. -/
def BATTERY_DEFAULT_NAME : String := "Main"

/-- `ConnectStatus` enumeration. -/
inductive ConnectStatus where
  | CONNECTED
  | DEVICE_NOT_FOUND
  | BATTERY_SERVICE_NOT_FOUND
  | BATTERY_LEVEL_CHARACTERISTIC_NOT_FOUND
  | SUBSCRIPTION_FAILURE
  deriving DecidableEq

/-- `ReadStatus` enumeration. -/
inductive ReadStatus where
  | SUCCESS
  | NOT_CONNECTED
  | FAILURE
  deriving DecidableEq

/-- `BatteryStatus` dataclass: display name and current level. -/
structure BatteryStatus where
  name : String
  level : Int
  deriving DecidableEq

/-- `ConnectResult` dataclass. -/
structure ConnectResult where
  status : ConnectStatus
  error_message : String
  deriving DecidableEq

/-- `ReadBatteryLevelResult` dataclass.  The Python dict of batteries is an
association list keyed by characteristic handle. -/
structure ReadBatteryLevelResult where
  status : ReadStatus
  batteries : List (Nat × BatteryStatus)
  error_message : String
  deriving DecidableEq

/-- One GATT characteristic as reported by the transport: UUID, handle and
(optional, possibly empty) description.  An empty description models Python
falsy `char.description`. -/
structure GattCharacteristic where
  uuid : String
  handle : Nat
  description : String
  deriving DecidableEq

/-- One GATT service as reported by the transport. -/
structure GattService where
  uuid : String
  characteristics : List GattCharacteristic
  deriving DecidableEq

/-- Outcome of `client.read_gatt_char` for one characteristic: either the
transport raises (message) or returns a byte string (possibly empty, which is
falsy in Python). -/
inductive ReadOutcome where
  | err (msg : String)
  | val (bytes : List Nat)
  deriving DecidableEq

/-- Pure model of the bleak transport behaviour during one monitor
operation. -/
structure Transport where
  /-- Result of `BleakScanner.find_device_by_address` (the device address). -/
  findDevice : Option String
  /-- Value of `client.is_connected` right after `client.connect()`. -/
  connectOk : Bool
  /-- Services returned by `client.get_services()`. -/
  services : List GattService
  /-- Outcome of `client.start_notify` for the characteristic with the given
  handle. -/
  subscribe : Nat → Except String Unit
  /-- Outcome of `client.read_gatt_char` for the characteristic with the
  given handle. -/
  readGatt : Nat → ReadOutcome

/-- The mutable state of a `BatteryMonitor` instance: `_batteries`,
`_client` (modelled by `client.is_connected` when a client is stored),
`_device`, `_battery_characteristics`. -/
structure MonitorState where
  batteries : List (Nat × BatteryStatus)
  client : Option Bool
  device : Option String
  battery_characteristics : List (Nat × String)
  deriving DecidableEq

/-- State set up by `BatteryMonitor.__init__`. -/
def initialState : MonitorState := ⟨[], none, none, []⟩

/-- `BatteryMonitor.is_connected`. -/
def isConnected (s : MonitorState) : Bool :=
  match s.client with
  | some c => c
  | none => false

/-- `BatteryMonitor.disconnect`: clears the battery dict and all session
fields.  The `asyncio.create_task(client.disconnect())` is a fire-and-forget
transport effect with no bearing on monitor state. -/
def disconnect (_s : MonitorState) : MonitorState := ⟨[], none, none, []⟩

/-- Python dict assignment `m[k] = v`: replace the binding in place if the
key is present, else append it. -/
def dictInsert (m : List (Nat × BatteryStatus)) (k : Nat) (v : BatteryStatus) :
    List (Nat × BatteryStatus) :=
  match m with
  | [] => [(k, v)]
  | (k', v') :: rest => if k' = k then (k, v) :: rest else (k', v') :: dictInsert rest k v

/-- Python dict lookup `m.get(k)`. -/
def dictGet (m : List (Nat × BatteryStatus)) (k : Nat) : Option BatteryStatus :=
  match m with
  | [] => none
  | (k', v') :: rest => if k' = k then some v' else dictGet rest k

/-- The `for ... if handle == sender ... break` search of
`_battery_level_changed_handler`: first description bound to the handle. -/
def findDesc : List (Nat × String) → Nat → Option String
  | [], _ => none
  | (h, d) :: rest, sender => if h = sender then some d else findDesc rest sender

/-- Python `str.lower()` as used on UUID strings: characterwise lowering
(written out so the kernel can evaluate it). -/
def strLower (s : String) : String := ⟨s.data.map Char.toLower⟩

/-- The `for service in services ... break` loop of `connect`: first service
whose lowercased UUID is the battery service UUID. -/
def findBatteryService : List GattService → Option GattService
  | [] => none
  | s :: rest =>
      if strLower s.uuid = BATTERY_SERVICE_UUID then some s else findBatteryService rest

/-- The characteristic-collection loop of `connect`: handles and display
names of each battery-level characteristic of the battery service
(`char.description or BATTERY_DEFAULT_NAME`). -/
def batteryChars (svc : GattService) : List (Nat × String) :=
  svc.characteristics.filterMap fun c =>
    if strLower c.uuid = BATTERY_LEVEL_CHAR_UUID then
      some (c.handle, if c.description = "" then BATTERY_DEFAULT_NAME else c.description)
    else none

/-- The level normalisation applied to the first raw byte in both
`read_battery_levels` and `_battery_level_changed_handler`:
`if level == 255: level = -1`. -/
def normalizeLevel (b : Nat) : Int :=
  if b = 255 then -1 else (b : Int)

/-- The `for handle, description in self._battery_characteristics` loop of
`read_battery_levels`, accumulating `result.batteries`; a transport
exception aborts the whole loop. -/
def readLevelsLoop (t : Transport) :
    List (Nat × String) → List (Nat × BatteryStatus) →
      Except String (List (Nat × BatteryStatus))
  | [], acc => .ok acc
  | (h, d) :: rest, acc =>
      match t.readGatt h with
      | .err e => .error e
      | .val bytes =>
          match bytes with
          | [] => readLevelsLoop t rest acc
          | b :: _ => readLevelsLoop t rest (dictInsert acc h ⟨d, normalizeLevel b⟩)

/-- `BatteryMonitor.read_battery_levels`.  The method never assigns
`self._batteries`; it only builds and returns a result. -/
def read_battery_levels (t : Transport) (s : MonitorState) : ReadBatteryLevelResult :=
  if isConnected s = false then ⟨.NOT_CONNECTED, [], ""⟩
  else
    match readLevelsLoop t s.battery_characteristics [] with
    | .ok bs => ⟨.SUCCESS, bs, ""⟩
    | .error e => ⟨.FAILURE, [], e⟩

/-- `read_battery_levels` as a state transformer: the source method mutates
no monitor field, so the state component is the input state. -/
def readBatteryLevelsOp (t : Transport) (s : MonitorState) :
    ReadBatteryLevelResult × MonitorState :=
  (read_battery_levels t s, s)

/-- Result of the subscription loop of `connect`: either every
characteristic subscribed (with the battery dict built so far), or the
failing characteristic's message together with the dict accumulated before
the failure (the source does not roll those entries back). -/
inductive SubscribeResult where
  | ok (batteries : List (Nat × BatteryStatus))
  | failed (msg : String) (batteries : List (Nat × BatteryStatus))
  deriving DecidableEq

/-- The `for handle, description in characteristics` subscription loop of
`connect`: on success of `start_notify` the channel is recorded with level
−1; on failure the loop aborts keeping earlier entries. -/
def subscribeChannels (t : Transport) :
    List (Nat × String) → List (Nat × BatteryStatus) → SubscribeResult
  | [], acc => .ok acc
  | (h, d) :: rest, acc =>
      match t.subscribe h with
      | .ok _ => subscribeChannels t rest (dictInsert acc h ⟨d, -1⟩)
      | .error e => .failed e acc

/-- The battery dict produced by a fully successful subscription loop
started from dict `acc`. -/
def initChannelsFrom (acc : List (Nat × BatteryStatus)) :
    List (Nat × String) → List (Nat × BatteryStatus)
  | [] => acc
  | (h, d) :: rest => initChannelsFrom (dictInsert acc h ⟨d, -1⟩) rest

/-- The battery dict right after a fully successful subscription loop:
every found characteristic bound to level −1. -/
def initChannels (chars : List (Nat × String)) : List (Nat × BatteryStatus) :=
  initChannelsFrom [] chars

/-- Monitor state at the `# Store the connection` point of `connect`:
client stored (connected), device stored, characteristics stored. -/
def connectedState (dev : String) (chars : List (Nat × String))
    (bs : List (Nat × BatteryStatus)) : MonitorState :=
  ⟨bs, some true, some dev, chars⟩

/-- The tail of a fully successful `connect` (source lines: `# Store the
connection` through the initial bulk read): store the client, device and
characteristics alongside the subscription-loop batteries `bs`, run the
initial `read_battery_levels`, and commit its map only on `SUCCESS`. -/
def connectFinish (t : Transport) (dev : String) (chars : List (Nat × String))
    (bs : List (Nat × BatteryStatus)) : MonitorState :=
  let s1 := connectedState dev chars bs
  let rr := read_battery_levels t s1
  if rr.status = .SUCCESS then { s1 with batteries := rr.batteries } else s1

/-- Monitor state at the end of a fully successful `connect`: the committed
batteries are the initial bulk read's map when that read succeeded, else the
−1-initialised channels. -/
def connectCommit (t : Transport) (dev : String) (chars : List (Nat × String)) :
    MonitorState :=
  connectFinish t dev chars (initChannels chars)

/-- What `BatteryMonitor.connect` produces: the returned `ConnectResult`,
the monitor state afterwards, and whether the BLE link opened during this
attempt is still open. -/
structure ConnectOutput where
  result : ConnectResult
  state : MonitorState
  linkOpen : Bool
  deriving DecidableEq

/-- `BatteryMonitor.connect`.  Mirrors the source stage by stage:
initial `self.disconnect()`, device lookup, transport connect and
`is_connected` check, battery-service search, battery-level characteristic
collection, subscription loop (recording channels as it goes), storing the
connection, and the initial bulk read whose result is committed only on
`SUCCESS`. -/
def connect (t : Transport) (s : MonitorState) : ConnectOutput :=
  let s0 := disconnect s
  match t.findDevice with
  | none => ⟨⟨.DEVICE_NOT_FOUND, ""⟩, s0, false⟩
  | some dev =>
      if t.connectOk = false then ⟨⟨.DEVICE_NOT_FOUND, ""⟩, s0, false⟩
      else
        match findBatteryService t.services with
        | none => ⟨⟨.BATTERY_SERVICE_NOT_FOUND, ""⟩, s0, false⟩
        | some svc =>
            let chars := batteryChars svc
            if chars = [] then ⟨⟨.BATTERY_LEVEL_CHARACTERISTIC_NOT_FOUND, ""⟩, s0, false⟩
            else
              match subscribeChannels t chars s0.batteries with
              | .failed e part =>
                  ⟨⟨.SUBSCRIPTION_FAILURE, e⟩, { s0 with batteries := part }, false⟩
              | .ok bs => ⟨⟨.CONNECTED, ""⟩, connectFinish t dev chars bs, true⟩

/-- `BatteryMonitor._battery_level_changed_handler`.  Returns the new state
and whether `_battery_changed_callback` was invoked (it is invoked whenever
the notification carries data, matched handle or not). -/
def battery_level_changed_handler (s : MonitorState) (sender : Nat)
    (data : List Nat) : MonitorState × Bool :=
  match data with
  | [] => (s, false)
  | b :: _ =>
      let level := normalizeLevel b
      let s' :=
        match findDesc s.battery_characteristics sender with
        | some d => { s with batteries := dictInsert s.batteries sender ⟨d, level⟩ }
        | none => s
      (s', true)

/-- `BatteryMonitor.list_paired_devices`.  The scan either returns
`(name, address)` pairs or raises.  Returns the list of
`device_callback(name, address)` invocations in order, and the number of
`completion_callback()` invocations. -/
def list_paired_devices (scan : Except String (List (String × String))) :
    List (String × String) × Nat :=
  match scan with
  | .ok devices => ((devices.filter fun dv => dv.1 != ""), 1)
  | .error _ => ([], 1)

/-! ### Reconnect scheduler (`system_tray.py`) -/

/-- `RECONNECT_INTERVAL` from `system_tray.py` (seconds; one tick per
second). -/
def RECONNECT_INTERVAL : Int := 300

/-- Scheduler-relevant state of `BatteryTrayApp`: `_reconnect_counter`,
`_reconnect_timer_running`, plus the number of `timer_tick` callbacks
currently scheduled (via `root.after` or a thread). -/
structure SchedulerState where
  reconnect_counter : Int
  reconnect_timer_running : Bool
  pendingTicks : Nat
  deriving DecidableEq

/-- Scheduler fields as set by `BatteryTrayApp.__init__`. -/
def appInitState : SchedulerState := ⟨RECONNECT_INTERVAL, false, 0⟩

/-- `BatteryTrayApp._start_reconnect_timer` up to scheduling the first
`timer_tick`: a no-op while already running; otherwise arms the timer and
schedules one tick (with a root window through `root.after`, without one
through a thread that invokes `timer_tick`). -/
def start_reconnect_timer (s : SchedulerState) : SchedulerState :=
  if s.reconnect_timer_running then s
  else ⟨RECONNECT_INTERVAL, true, s.pendingTicks + 1⟩

/-- Outcome of the connect attempt awaited by `on_connect_done`: either the
future resolved to a `ConnectStatus`, or retrieving the result raised. -/
inductive ConnectAttemptOutcome where
  | result (status : ConnectStatus)
  | raisedErr (msg : String)
  deriving DecidableEq

/-- One firing of `timer_tick` (including, when the counter expires, the
connect attempt and its `on_connect_done` callback).  `hasRoot` tells
whether `self._root` is set.  The fired callback is consumed from
`pendingTicks`; a new one is scheduled exactly where the source schedules
one: unconditionally while counting down (`root.after` or the thread-based
fallback both re-invoke `timer_tick`), and only under `if self._root:`
after a failed or raising connect attempt.  A `CONNECTED` outcome clears
`_reconnect_timer_running` and schedules nothing. -/
def timer_tick (hasRoot : Bool) (outcome : ConnectAttemptOutcome)
    (s : SchedulerState) : SchedulerState :=
  let s1 : SchedulerState := { s with pendingTicks := s.pendingTicks - 1 }
  if s1.reconnect_timer_running = false then s1
  else
    let c := s1.reconnect_counter - 1
    if c ≤ 0 then
      match outcome with
      | .result .CONNECTED =>
          { s1 with reconnect_counter := c, reconnect_timer_running := false }
      | .result _ =>
          let s2 := { s1 with reconnect_counter := RECONNECT_INTERVAL }
          if hasRoot then { s2 with pendingTicks := s2.pendingTicks + 1 } else s2
      | .raisedErr _ =>
          let s2 := { s1 with reconnect_counter := RECONNECT_INTERVAL }
          if hasRoot then { s2 with pendingTicks := s2.pendingTicks + 1 } else s2
    else
      { s1 with reconnect_counter := c, pendingTicks := s1.pendingTicks + 1 }

/-! ### Concrete fixtures used by counterexamples and witnesses -/

/-- A battery service exposing two battery-level characteristics,
"Left" (handle 1) and "Right" (handle 2). -/
def twoCharService : GattService :=
  ⟨BATTERY_SERVICE_UUID,
    [⟨BATTERY_LEVEL_CHAR_UUID, 1, "Left"⟩, ⟨BATTERY_LEVEL_CHAR_UUID, 2, "Right"⟩]⟩

/-- Transport on which subscription succeeds for handle 1 and fails for
handle 2. -/
def subFailTransport : Transport :=
  { findDevice := some "AA:BB"
    connectOk := true
    services := [twoCharService]
    subscribe := fun h => if h = 1 then .ok () else .error "notify registration failed"
    readGatt := fun _ => .val [] }

/-- Transport on which both subscriptions succeed and every characteristic
read raises, so the initial bulk read of `connect` fails. -/
def okTransportLR : Transport :=
  { findDevice := some "AA:BB"
    connectOk := true
    services := [twoCharService]
    subscribe := fun _ => .ok ()
    readGatt := fun _ => .err "read failed" }

/-- Transport on which both subscriptions succeed, handle 1 reads byte 50
and handle 2 reads no data. -/
def skipTransport : Transport :=
  { findDevice := some "AA:BB"
    connectOk := true
    services := [twoCharService]
    subscribe := fun _ => .ok ()
    readGatt := fun h => if h = 1 then .val [50] else .val [] }

/-- Transport with no reachable device. -/
def emptyTransport : Transport :=
  { findDevice := none
    connectOk := false
    services := []
    subscribe := fun _ => .ok ()
    readGatt := fun _ => .val [] }

/-- Transport on which handle 1 reads byte 40 and handle 2 raises. -/
def readFail2Transport : Transport :=
  { findDevice := some "AA:BB"
    connectOk := true
    services := [twoCharService]
    subscribe := fun _ => .ok ()
    readGatt := fun h => if h = 1 then .val [40] else .err "boom" }

/-- Transport on which every characteristic read returns the single byte
255. -/
def read255Transport : Transport :=
  { findDevice := none
    connectOk := false
    services := []
    subscribe := fun _ => .ok ()
    readGatt := fun _ => .val [255] }

/-- A connected session with channels "Left" (handle 1) and "Right"
(handle 2), both at level −1. -/
def sLR : MonitorState :=
  ⟨[(1, ⟨"Left", -1⟩), (2, ⟨"Right", -1⟩)], some true, some "AA:BB",
    [(1, "Left"), (2, "Right")]⟩

/-- A connected session with a single channel "Main" (handle 7) at level
−1. -/
def oneChanState : MonitorState :=
  ⟨[(7, ⟨"Main", -1⟩)], some true, some "AA:BB", [(7, "Main")]⟩

/-! ### Predicates used by the invariant claims -/

/-- The spec invariant "the Battery Channel collection is empty when no
Connection Session is active", strengthened with the characteristic list so
that it is inductive for the notification handler. -/
def GoodState (s : MonitorState) : Prop :=
  isConnected s = false → (s.batteries = [] ∧ s.battery_characteristics = [])

/-- A level the code can actually store: the sentinel −1 or a raw byte
other than 255. -/
def LevelOk (lv : Int) : Prop := lv = -1 ∨ (0 ≤ lv ∧ lv ≤ 254)

/-- Every recorded channel level satisfies `LevelOk`. -/
def LevelsOk (s : MonitorState) : Prop := ∀ p ∈ s.batteries, LevelOk p.2.level

/-- Every byte string the transport can return starts with an actual byte
(`bytearray` elements are < 256). -/
def TransportBytesOk (t : Transport) : Prop :=
  ∀ (h b : Nat) (bs : List Nat), t.readGatt h = .val (b :: bs) → b ≤ 255

/-! ### Helper lemmas -/

theorem dictGet_dictInsert_self (m : List (Nat × BatteryStatus)) (k : Nat)
    (v : BatteryStatus) : dictGet (dictInsert m k v) k = some v := by
  induction m with
  | nil => simp [dictInsert, dictGet]
  | cons p rest ih =>
      obtain ⟨k', v'⟩ := p
      by_cases h : k' = k
      · subst h; simp [dictInsert, dictGet]
      · simp [dictInsert, dictGet, h, ih]

theorem dictGet_dictInsert_ne (m : List (Nat × BatteryStatus)) (k k' : Nat)
    (v : BatteryStatus) (hne : k' ≠ k) :
    dictGet (dictInsert m k v) k' = dictGet m k' := by
  have hne' : ¬ k = k' := fun hEq => hne hEq.symm
  induction m with
  | nil => simp [dictInsert, dictGet, hne']
  | cons p rest ih =>
      obtain ⟨a, b⟩ := p
      by_cases h : a = k
      · subst h
        simp [dictInsert, dictGet, hne']
      · simp [dictInsert, dictGet, h, ih]

theorem mem_dictInsert (m : List (Nat × BatteryStatus)) (k : Nat)
    (v : BatteryStatus) (p : Nat × BatteryStatus) :
    p ∈ dictInsert m k v → p ∈ m ∨ p = (k, v) := by
  induction m with
  | nil =>
      intro hp
      simp only [dictInsert, List.mem_singleton] at hp
      right; exact hp
  | cons q rest ih =>
      obtain ⟨a, b⟩ := q
      intro hp
      simp only [dictInsert] at hp
      by_cases h : a = k
      · rw [if_pos h] at hp
        rcases List.mem_cons.mp hp with hp | hp
        · right; exact hp
        · left; exact List.mem_cons_of_mem _ hp
      · rw [if_neg h] at hp
        rcases List.mem_cons.mp hp with hp | hp
        · left; exact hp ▸ List.mem_cons_self _ _
        · rcases ih hp with hm | hv
          · left; exact List.mem_cons_of_mem _ hm
          · right; exact hv

theorem dictInsert_of_not_mem (m : List (Nat × BatteryStatus)) (k : Nat)
    (v : BatteryStatus) : k ∉ m.map Prod.fst → dictInsert m k v = m ++ [(k, v)] := by
  induction m with
  | nil => intro _; simp [dictInsert]
  | cons q rest ih =>
      obtain ⟨a, b⟩ := q
      intro h
      simp only [List.map_cons, List.mem_cons] at h
      push_neg at h
      have hak : ¬ a = k := fun hEq => h.1 hEq.symm
      simp [dictInsert, hak, ih h.2]

theorem levelOk_normalizeLevel (b : Nat) (hb : b ≤ 255) :
    LevelOk (normalizeLevel b) := by
  by_cases h : b = 255
  · left; simp [normalizeLevel, h]
  · right
    simp only [normalizeLevel, if_neg h]
    omega

theorem subscribeChannels_ok_of_all (t : Transport) :
    ∀ (chars : List (Nat × String)) (acc : List (Nat × BatteryStatus)),
      (∀ c ∈ chars, t.subscribe c.1 = Except.ok ()) →
      subscribeChannels t chars acc = .ok (initChannelsFrom acc chars) := by
  intro chars
  induction chars with
  | nil => intro acc _; rfl
  | cons c rest ih =>
      intro acc hall
      obtain ⟨h, d⟩ := c
      have hc : t.subscribe h = Except.ok () := hall (h, d) (List.mem_cons_self _ _)
      simp only [subscribeChannels, hc, initChannelsFrom]
      exact ih _ fun c hc' => hall c (List.mem_cons_of_mem _ hc')

theorem subscribeChannels_error_split (t : Transport) (h : Nat) (d : String)
    (e : String) (he : t.subscribe h = Except.error e) :
    ∀ (pre rest : List (Nat × String)) (acc : List (Nat × BatteryStatus)),
      (∀ c ∈ pre, t.subscribe c.1 = Except.ok ()) →
      subscribeChannels t (pre ++ (h, d) :: rest) acc =
        .failed e (initChannelsFrom acc pre) := by
  intro pre
  induction pre with
  | nil => intro rest acc _; simp [subscribeChannels, he, initChannelsFrom]
  | cons c pre' ih =>
      intro rest acc hall
      obtain ⟨h0, d0⟩ := c
      have hc : t.subscribe h0 = Except.ok () := hall (h0, d0) (List.mem_cons_self _ _)
      simp only [List.cons_append, subscribeChannels, hc, initChannelsFrom]
      exact ih rest _ fun c hc' => hall c (List.mem_cons_of_mem _ hc')

theorem initChannelsFrom_eq_append :
    ∀ (chars : List (Nat × String)) (acc : List (Nat × BatteryStatus)),
      (∀ c ∈ chars, c.1 ∉ acc.map Prod.fst) →
      (chars.map Prod.fst).Nodup →
      initChannelsFrom acc chars =
        acc ++ chars.map fun c => (c.1, BatteryStatus.mk c.2 (-1)) := by
  intro chars
  induction chars with
  | nil => intro acc _ _; simp [initChannelsFrom]
  | cons c rest ih =>
      intro acc hdisj hnd
      obtain ⟨h, d⟩ := c
      simp only [List.map_cons, List.nodup_cons] at hnd
      have hnotin : h ∉ acc.map Prod.fst := hdisj (h, d) (List.mem_cons_self _ _)
      simp only [initChannelsFrom, dictInsert_of_not_mem acc h _ hnotin]
      rw [ih (acc ++ [(h, BatteryStatus.mk d (-1))])]
      · simp
      · intro c hc
        simp only [List.map_append, List.mem_append]
        push_neg
        constructor
        · exact hdisj c (List.mem_cons_of_mem _ hc)
        · intro hmem
          simp only [List.map_cons, List.map_nil, List.mem_singleton] at hmem
          exact hnd.1 (hmem ▸ List.mem_map_of_mem Prod.fst hc)
      · exact hnd.2

theorem mem_initChannelsFrom :
    ∀ (chars : List (Nat × String)) (acc : List (Nat × BatteryStatus))
      (p : Nat × BatteryStatus), p ∈ initChannelsFrom acc chars →
      p ∈ acc ∨ p.2.level = -1 := by
  intro chars
  induction chars with
  | nil => intro acc p hp; left; exact hp
  | cons c rest ih =>
      intro acc p hp
      obtain ⟨h, d⟩ := c
      rcases ih (dictInsert acc h ⟨d, -1⟩) p hp with hmem | hlv
      · rcases mem_dictInsert _ _ _ _ hmem with hm | he
        · left; exact hm
        · right; rw [he]
      · right; exact hlv

theorem subscribeChannels_ok_mem (t : Transport) :
    ∀ (chars : List (Nat × String)) (acc bs : List (Nat × BatteryStatus)),
      subscribeChannels t chars acc = .ok bs →
      ∀ p ∈ bs, p ∈ acc ∨ p.2.level = -1 := by
  intro chars
  induction chars with
  | nil =>
      intro acc bs hok p hp
      simp only [subscribeChannels, SubscribeResult.ok.injEq] at hok
      left; exact hok ▸ hp
  | cons c rest ih =>
      intro acc bs hok p hp
      obtain ⟨h, d⟩ := c
      rcases hs : t.subscribe h with e | u
      · simp [subscribeChannels, hs] at hok
      · simp only [subscribeChannels, hs] at hok
        rcases ih _ _ hok p hp with hmem | hlv
        · rcases mem_dictInsert _ _ _ _ hmem with hm | he
          · left; exact hm
          · right; rw [he]
        · right; exact hlv

theorem subscribeChannels_failed_mem (t : Transport) :
    ∀ (chars : List (Nat × String)) (acc bs : List (Nat × BatteryStatus))
      (e : String), subscribeChannels t chars acc = .failed e bs →
      ∀ p ∈ bs, p ∈ acc ∨ p.2.level = -1 := by
  intro chars
  induction chars with
  | nil => intro acc bs e hok; simp [subscribeChannels] at hok
  | cons c rest ih =>
      intro acc bs e hok p hp
      obtain ⟨h, d⟩ := c
      rcases hs : t.subscribe h with e' | u
      · simp only [subscribeChannels, hs, SubscribeResult.failed.injEq] at hok
        left; exact hok.2 ▸ hp
      · simp only [subscribeChannels, hs] at hok
        rcases ih _ _ _ hok p hp with hmem | hlv
        · rcases mem_dictInsert _ _ _ _ hmem with hm | he
          · left; exact hm
          · right; rw [he]
        · right; exact hlv

theorem readLevelsLoop_error_split (t : Transport) (h : Nat) (d : String)
    (e : String) (he : t.readGatt h = .err e) :
    ∀ (pre rest : List (Nat × String)) (acc : List (Nat × BatteryStatus)),
      (∀ c ∈ pre, ∀ msg, t.readGatt c.1 ≠ .err msg) →
      readLevelsLoop t (pre ++ (h, d) :: rest) acc = .error e := by
  intro pre
  induction pre with
  | nil => intro rest acc _; simp [readLevelsLoop, he]
  | cons c pre' ih =>
      intro rest acc hall
      obtain ⟨h0, d0⟩ := c
      rcases hr : t.readGatt h0 with msg | bytes
      · exact absurd hr (hall (h0, d0) (List.mem_cons_self _ _) msg)
      · have htail : ∀ c ∈ pre', ∀ msg, t.readGatt c.1 ≠ .err msg :=
          fun c hc msg => hall c (List.mem_cons_of_mem _ hc) msg
        rcases bytes with _ | ⟨b, bs⟩
        · simp only [List.cons_append, readLevelsLoop, hr]
          exact ih rest acc htail
        · simp only [List.cons_append, readLevelsLoop, hr]
          exact ih rest _ htail

theorem readLevelsLoop_ok_exists (t : Transport) :
    ∀ (chars : List (Nat × String)) (acc : List (Nat × BatteryStatus)),
      (∀ c ∈ chars, ∀ msg, t.readGatt c.1 ≠ .err msg) →
      ∃ bs, readLevelsLoop t chars acc = .ok bs := by
  intro chars
  induction chars with
  | nil => intro acc _; exact ⟨acc, rfl⟩
  | cons c rest ih =>
      intro acc hall
      obtain ⟨h0, d0⟩ := c
      have htail : ∀ c ∈ rest, ∀ msg, t.readGatt c.1 ≠ .err msg :=
        fun c hc msg => hall c (List.mem_cons_of_mem _ hc) msg
      rcases hr : t.readGatt h0 with msg | bytes
      · exact absurd hr (hall (h0, d0) (List.mem_cons_self _ _) msg)
      · rcases bytes with _ | ⟨b, bs⟩
        · simpa only [readLevelsLoop, hr] using ih acc htail
        · simpa only [readLevelsLoop, hr] using ih _ htail

theorem readLevelsLoop_get_none (t : Transport) (h : Nat) :
    ∀ (chars : List (Nat × String)) (acc bs : List (Nat × BatteryStatus)),
      (∀ c ∈ chars, c.1 = h → t.readGatt c.1 = .val []) →
      dictGet acc h = none →
      readLevelsLoop t chars acc = .ok bs →
      dictGet bs h = none := by
  intro chars
  induction chars with
  | nil =>
      intro acc bs _ hacc hloop
      simp only [readLevelsLoop, Except.ok.injEq] at hloop
      exact hloop ▸ hacc
  | cons c rest ih =>
      intro acc bs hnodata hacc hloop
      obtain ⟨h0, d0⟩ := c
      have htail : ∀ c ∈ rest, c.1 = h → t.readGatt c.1 = .val [] :=
        fun c hc => hnodata c (List.mem_cons_of_mem _ hc)
      rcases hr : t.readGatt h0 with msg | bytes
      · simp [readLevelsLoop, hr] at hloop
      · rcases bytes with _ | ⟨b, bs0⟩
        · simp only [readLevelsLoop, hr] at hloop
          exact ih acc bs htail hacc hloop
        · simp only [readLevelsLoop, hr] at hloop
          have hne : h0 ≠ h := by
            intro hEq
            have := hnodata (h0, d0) (List.mem_cons_self _ _) hEq
            rw [hr] at this
            simp at this
          refine ih _ bs htail ?_ hloop
          rw [dictGet_dictInsert_ne _ _ _ _ fun hEq => hne hEq.symm]
          exact hacc

theorem readLevelsLoop_levels (t : Transport) (hbytes : TransportBytesOk t) :
    ∀ (chars : List (Nat × String)) (acc bs : List (Nat × BatteryStatus)),
      (∀ p ∈ acc, LevelOk p.2.level) →
      readLevelsLoop t chars acc = .ok bs →
      ∀ p ∈ bs, LevelOk p.2.level := by
  intro chars
  induction chars with
  | nil =>
      intro acc bs hacc hloop
      simp only [readLevelsLoop, Except.ok.injEq] at hloop
      exact hloop ▸ hacc
  | cons c rest ih =>
      intro acc bs hacc hloop
      obtain ⟨h0, d0⟩ := c
      rcases hr : t.readGatt h0 with msg | bytes
      · simp [readLevelsLoop, hr] at hloop
      · rcases bytes with _ | ⟨b, bs0⟩
        · simp only [readLevelsLoop, hr] at hloop
          exact ih acc bs hacc hloop
        · simp only [readLevelsLoop, hr] at hloop
          refine ih _ bs ?_ hloop
          intro p hp
          rcases mem_dictInsert _ _ _ _ hp with hm | he
          · exact hacc p hm
          · rw [he]
            exact levelOk_normalizeLevel b (hbytes h0 b bs0 hr)

theorem read_batteries_levelOk (t : Transport) (s : MonitorState)
    (hbytes : TransportBytesOk t) :
    ∀ p ∈ (read_battery_levels t s).batteries, LevelOk p.2.level := by
  unfold read_battery_levels
  by_cases hc : isConnected s = false
  · simp [hc]
  · simp only [hc, if_neg, Bool.false_eq_true, ite_false]
    rcases hloop : readLevelsLoop t s.battery_characteristics [] with e | bs
    · simp [hloop]
    · simp only [hloop]
      exact readLevelsLoop_levels t hbytes _ [] bs (by simp) hloop

theorem connectFinish_client (t : Transport) (dev : String)
    (chars : List (Nat × String)) (bs : List (Nat × BatteryStatus)) :
    (connectFinish t dev chars bs).client = some true := by
  unfold connectFinish
  dsimp only
  split <;> rfl

theorem mem_connectFinish_batteries (t : Transport) (dev : String)
    (chars : List (Nat × String)) (bs : List (Nat × BatteryStatus))
    (p : Nat × BatteryStatus)
    (hp : p ∈ (connectFinish t dev chars bs).batteries) :
    p ∈ (read_battery_levels t (connectedState dev chars bs)).batteries ∨ p ∈ bs := by
  unfold connectFinish at hp
  dsimp only at hp
  split at hp
  · left; exact hp
  · right; exact hp

theorem goodState_of_client_true (s : MonitorState) (h : s.client = some true) :
    GoodState s := by
  intro hic
  rw [isConnected, h] at hic
  simp at hic

theorem connect_success_eq (t : Transport) (s : MonitorState) (dev : String)
    (svc : GattService)
    (h1 : t.findDevice = some dev) (h2 : t.connectOk = true)
    (h3 : findBatteryService t.services = some svc)
    (h4 : ¬ batteryChars svc = [])
    (h5 : ∀ c ∈ batteryChars svc, t.subscribe c.1 = Except.ok ()) :
    connect t s = ⟨⟨.CONNECTED, ""⟩, connectCommit t dev (batteryChars svc), true⟩ := by
  have hsub := subscribeChannels_ok_of_all t (batteryChars svc) [] h5
  simp [connect, h1, h2, h3, h4, disconnect, hsub, connectCommit, initChannels]

theorem goodState_connect (t : Transport) (s : MonitorState)
    (hst : (connect t s).result.status ≠ ConnectStatus.SUBSCRIPTION_FAILURE) :
    GoodState (connect t s).state := by
  rcases hfd : t.findDevice with _ | dev
  · simp [connect, hfd, disconnect, GoodState, isConnected]
  · cases hck : t.connectOk
    · simp [connect, hfd, hck, disconnect, GoodState, isConnected]
    · rcases hsvc : findBatteryService t.services with _ | svc
      · simp [connect, hfd, hck, hsvc, disconnect, GoodState, isConnected]
      · by_cases hch : batteryChars svc = []
        · simp [connect, hfd, hck, hsvc, hch, disconnect, GoodState, isConnected]
        · rcases hsub : subscribeChannels t (batteryChars svc) [] with bs | ⟨e, part⟩
          · simp only [connect, hfd, hck, hsvc, hch, if_neg, disconnect, hsub]
            exact goodState_of_client_true _ (connectFinish_client t dev _ bs)
          · simp [connect, hfd, hck, hsvc, hch, disconnect, hsub] at hst

theorem connect_levelsOk (t : Transport) (s : MonitorState)
    (hbytes : TransportBytesOk t) : LevelsOk (connect t s).state := by
  rcases hfd : t.findDevice with _ | dev
  · simp [connect, hfd, disconnect, LevelsOk]
  · cases hck : t.connectOk
    · simp [connect, hfd, hck, disconnect, LevelsOk]
    · rcases hsvc : findBatteryService t.services with _ | svc
      · simp [connect, hfd, hck, hsvc, disconnect, LevelsOk]
      · by_cases hch : batteryChars svc = []
        · simp [connect, hfd, hck, hsvc, hch, disconnect, LevelsOk]
        · rcases hsub : subscribeChannels t (batteryChars svc) [] with bs | ⟨e, part⟩
          · simp only [connect, hfd, hck, hsvc, hch, if_neg, disconnect, hsub]
            intro p hp
            rcases mem_connectFinish_batteries t dev _ bs p hp with hread | hbs
            · exact read_batteries_levelOk t _ hbytes p hread
            · rcases subscribeChannels_ok_mem t _ _ _ hsub p hbs with hm | hlv
              · simp at hm
              · left; exact hlv
          · simp only [connect, hfd, hck, hsvc, hch, if_neg, disconnect, hsub]
            intro p hp
            rcases subscribeChannels_failed_mem t _ _ _ _ hsub p hp with hm | hlv
            · simp at hm
            · left; exact hlv

/-! ### Claim theorems -/

/-- C1, counterexample: on a transport where subscription fails on the
second of two found battery-level characteristics, `connect` returns
`SUBSCRIPTION_FAILURE` with a non-empty diagnostic and the link is closed,
but the Battery Channel created for the first characteristic persists in
the monitor's battery map — refuting "zero Battery Channels persist". -/
theorem connect_subfail_partial_channels_persist :
    (connect subFailTransport initialState).result.status =
        ConnectStatus.SUBSCRIPTION_FAILURE ∧
    (connect subFailTransport initialState).result.error_message ≠ "" ∧
    (connect subFailTransport initialState).linkOpen = false ∧
    (connect subFailTransport initialState).state.batteries =
        [(1, ⟨"Left", -1⟩)] ∧
    ¬ (connect subFailTransport initialState).state.batteries = [] := by
  decide

/-- C1 (amended): when every connect stage succeeds up to the subscription
loop and `start_notify` fails on some found battery-level characteristic,
`connect` returns `SUBSCRIPTION_FAILURE` carrying the transport's
diagnostic, the transport link is closed and no session is stored, but the
Battery Channels recorded for the characteristics subscribed before the
failing one remain in the monitor's battery map (at level −1). -/
theorem connect_subscription_failure_spec (t : Transport) (s : MonitorState)
    (dev : String) (svc : GattService) (pre rest : List (Nat × String))
    (h : Nat) (d : String) (e : String)
    (h1 : t.findDevice = some dev) (h2 : t.connectOk = true)
    (h3 : findBatteryService t.services = some svc)
    (h4 : batteryChars svc = pre ++ (h, d) :: rest)
    (h5 : ∀ c ∈ pre, t.subscribe c.1 = Except.ok ())
    (h6 : t.subscribe h = Except.error e) :
    connect t s =
      ⟨⟨.SUBSCRIPTION_FAILURE, e⟩, ⟨initChannels pre, none, none, []⟩, false⟩ := by
  have hsub := subscribeChannels_error_split t h d e h6 pre rest [] h5
  simp [connect, h1, h2, h3, h4, disconnect, hsub, initChannels]

/-- Witness for C1: the amended theorem applied to the concrete
two-characteristic transport whose second subscription fails. -/
theorem connect_subscription_failure_spec_witness :
    connect subFailTransport initialState =
      ⟨⟨.SUBSCRIPTION_FAILURE, "notify registration failed"⟩,
        ⟨initChannels [(1, "Left")], none, none, []⟩, false⟩ := by
  exact connect_subscription_failure_spec subFailTransport initialState "AA:BB"
    twoCharService [(1, "Left")] [] 2 "Right" "notify registration failed"
    rfl rfl (by decide) (by decide)
    (by intro c hc; simp only [List.mem_singleton] at hc; subst hc; rfl)
    rfl

/-- C2, counterexample: after the subscription-failure connect attempt no
Connection Session is active (`isConnected` is false) yet the Battery
Channel collection is not empty — refuting the invariant as stated. -/
theorem subfail_disconnected_nonempty_batteries :
    isConnected (connect subFailTransport initialState).state = false ∧
    ¬ (connect subFailTransport initialState).state.batteries = [] := by
  decide

/-- C2 (amended): `disconnect` always leaves an empty battery map and no
active session, regardless of prior state; `read_battery_levels` never
changes monitor state; the notification handler preserves the invariant
"no session → no channels (and no characteristics)"; and `connect`
re-establishes that invariant on every path except the
subscription-failure outcome, where the channels subscribed before the
failure leak. -/
theorem monitor_empty_when_disconnected_spec :
    (∀ s : MonitorState,
        (disconnect s).batteries = [] ∧ isConnected (disconnect s) = false) ∧
    (∀ (t : Transport) (s : MonitorState), (readBatteryLevelsOp t s).2 = s) ∧
    (∀ (s : MonitorState) (sender : Nat) (data : List Nat),
        GoodState s → GoodState (battery_level_changed_handler s sender data).1) ∧
    (∀ (t : Transport) (s : MonitorState),
        (connect t s).result.status ≠ ConnectStatus.SUBSCRIPTION_FAILURE →
        GoodState (connect t s).state) := by
  refine ⟨fun s => ⟨rfl, rfl⟩, fun t s => rfl, ?_, goodState_connect⟩
  intro s sender data hg
  rcases data with _ | ⟨b, bs⟩
  · exact hg
  · rcases hfind : findDesc s.battery_characteristics sender with _ | d
    · simpa [battery_level_changed_handler, hfind] using hg
    · intro hic
      have hclient : (battery_level_changed_handler s sender (b :: bs)).1.client
          = s.client := by
        simp [battery_level_changed_handler, hfind]
      have hic' : isConnected s = false := by
        rw [isConnected] at hic ⊢
        rw [hclient] at hic
        exact hic
      rcases hg hic' with ⟨hb, hch⟩
      rw [hch] at hfind
      simp [findDesc] at hfind

/-- Witness for C2: the amended theorem's conditional conjuncts applied to
concrete inputs. -/
theorem monitor_empty_when_disconnected_spec_witness :
    GoodState (battery_level_changed_handler initialState 1 [42]).1 ∧
    GoodState (connect emptyTransport initialState).state := by
  refine ⟨monitor_empty_when_disconnected_spec.2.2.1 initialState 1 [42] ?_,
    monitor_empty_when_disconnected_spec.2.2.2 emptyTransport initialState ?_⟩
  · unfold GoodState
    decide
  · decide

/-- C3, counterexample: a notification with first byte 200 processed on a
state reached by a successful connect stores level 200, which is neither
−1 nor within [0,100] — refuting the invariant as stated. -/
theorem handler_stores_out_of_range_level :
    dictGet (battery_level_changed_handler
        (connect okTransportLR initialState).state 1 [200]).1.batteries 1 =
      some ⟨"Left", 200⟩ ∧
    ¬ ((200 : Int) = -1 ∨ (0 ≤ (200 : Int) ∧ (200 : Int) ≤ 100)) := by
  decide

/-- C3 (amended): after every operation — connect (with its initial read),
readBatteryLevels, the notification handler on data whose bytes are
genuine bytes (≤ 255), and disconnect — every Battery Channel's level is
either −1 or within [0,254]: the code stores the raw byte unchanged except
for the 255 sentinel, so 101..254 are storable and only 255 maps to −1. -/
theorem levels_in_byte_range_spec :
    (∀ (t : Transport) (s : MonitorState), TransportBytesOk t →
        LevelsOk (connect t s).state) ∧
    (∀ (t : Transport) (s : MonitorState), TransportBytesOk t →
        ∀ p ∈ (read_battery_levels t s).batteries, LevelOk p.2.level) ∧
    (∀ (s : MonitorState) (sender : Nat) (data : List Nat),
        (∀ b ∈ data, b ≤ 255) → LevelsOk s →
        LevelsOk (battery_level_changed_handler s sender data).1) ∧
    (∀ s : MonitorState, LevelsOk (disconnect s)) := by
  refine ⟨fun t s hb => connect_levelsOk t s hb,
    fun t s hb => read_batteries_levelOk t s hb, ?_,
    fun s p hp => by simp [disconnect] at hp⟩
  intro s sender data hdata hlv
  rcases data with _ | ⟨b, bs⟩
  · exact hlv
  · rcases hfind : findDesc s.battery_characteristics sender with _ | d
    · simpa [battery_level_changed_handler, hfind] using hlv
    · intro p hp
      simp only [battery_level_changed_handler, hfind] at hp
      rcases mem_dictInsert _ _ _ _ hp with hm | he
      · exact hlv p hm
      · rw [he]
        exact levelOk_normalizeLevel b (hdata b (List.mem_cons_self _ _))

/-- Witness for C3: the amended theorem applied to the concrete
connect/notification inputs. -/
theorem levels_in_byte_range_spec_witness :
    LevelsOk (connect okTransportLR initialState).state ∧
    LevelsOk (battery_level_changed_handler sLR 2 [45]).1 := by
  refine ⟨levels_in_byte_range_spec.1 okTransportLR initialState ?_,
    levels_in_byte_range_spec.2.2.1 sLR 2 [45] (by decide) ?_⟩
  · intro h b bs hv
    simp [okTransportLR] at hv
  · unfold LevelsOk LevelOk
    decide

/-- C4: `read_battery_levels` returns `NOT_CONNECTED` (with an empty map)
when no session is active; when connected, a transport exception on any
channel makes the whole read return `FAILURE` carrying the exception text
with an empty channel map (partial updates accumulated before the
exception are discarded), and in both cases the monitor's own battery
state is left unchanged. -/
theorem read_failure_atomic_spec :
    (∀ (t : Transport) (s : MonitorState), isConnected s = false →
        readBatteryLevelsOp t s = (⟨.NOT_CONNECTED, [], ""⟩, s)) ∧
    (∀ (t : Transport) (s : MonitorState) (pre rest : List (Nat × String))
        (h : Nat) (d : String) (e : String),
        isConnected s = true →
        s.battery_characteristics = pre ++ (h, d) :: rest →
        (∀ c ∈ pre, ∀ msg, t.readGatt c.1 ≠ .err msg) →
        t.readGatt h = .err e →
        readBatteryLevelsOp t s = (⟨.FAILURE, [], e⟩, s)) := by
  constructor
  · intro t s hns
    simp [readBatteryLevelsOp, read_battery_levels, hns]
  · intro t s pre rest h d e hc hsplit hpre he
    have hloop := readLevelsLoop_error_split t h d e he pre rest [] hpre
    simp [readBatteryLevelsOp, read_battery_levels, hc, hsplit, hloop]

/-- Witness for C4: the two conjuncts applied at a fresh monitor and at a
connected two-channel session whose second read raises. -/
theorem read_failure_atomic_spec_witness :
    readBatteryLevelsOp emptyTransport initialState =
      (⟨.NOT_CONNECTED, [], ""⟩, initialState) ∧
    readBatteryLevelsOp readFail2Transport sLR = (⟨.FAILURE, [], "boom"⟩, sLR) := by
  refine ⟨read_failure_atomic_spec.1 emptyTransport initialState rfl,
    read_failure_atomic_spec.2 readFail2Transport sLR [(1, "Left")] [] 2 "Right"
      "boom" rfl rfl ?_ rfl⟩
  intro c hc msg
  simp only [List.mem_singleton] at hc
  subst hc
  simp [readFail2Transport]

/-- C5, counterexample: connect on a transport whose second channel reads
no data succeeds, the initial read is a `SUCCESS` that omits that channel,
and after connect commits it the channel — present at level −1 before the
read — is gone from the monitor's state rather than retained at its prior
level. -/
theorem connect_drops_nodata_channel :
    (connect skipTransport initialState).result.status =
        ConnectStatus.CONNECTED ∧
    dictGet (initChannels (batteryChars twoCharService)) 2 =
        some ⟨"Right", -1⟩ ∧
    dictGet (connect skipTransport initialState).state.batteries 2 = none := by
  decide

/-- C5 (amended): during a bulk read a channel whose read returns no data
is skipped without making the read fatal, but it is omitted from the
returned channel map; and a successful connect whose initial read returns
`SUCCESS` commits exactly that returned map as the monitor's state, so a
skipped channel is dropped from the state, not retained at its prior
level. -/
theorem read_skip_nodata_spec :
    (∀ (t : Transport) (s : MonitorState) (h : Nat) (d : String),
        isConnected s = true →
        (h, d) ∈ s.battery_characteristics →
        (∀ c ∈ s.battery_characteristics, ∀ msg, t.readGatt c.1 ≠ .err msg) →
        (∀ c ∈ s.battery_characteristics, c.1 = h → t.readGatt c.1 = .val []) →
        (read_battery_levels t s).status = .SUCCESS ∧
        dictGet (read_battery_levels t s).batteries h = none) ∧
    (∀ (t : Transport) (s : MonitorState) (dev : String) (svc : GattService),
        t.findDevice = some dev → t.connectOk = true →
        findBatteryService t.services = some svc →
        ¬ batteryChars svc = [] →
        (∀ c ∈ batteryChars svc, t.subscribe c.1 = Except.ok ()) →
        (read_battery_levels t (connectedState dev (batteryChars svc)
            (initChannels (batteryChars svc)))).status = .SUCCESS →
        (connect t s).state.batteries =
          (read_battery_levels t (connectedState dev (batteryChars svc)
            (initChannels (batteryChars svc)))).batteries) := by
  constructor
  · intro t s h d hc _hmem hnoerr hnodata
    obtain ⟨bs, hloop⟩ := readLevelsLoop_ok_exists t s.battery_characteristics [] hnoerr
    have hget := readLevelsLoop_get_none t h s.battery_characteristics [] bs
      hnodata rfl hloop
    constructor
    · simp [read_battery_levels, hc, hloop]
    · simp [read_battery_levels, hc, hloop, hget]
  · intro t s dev svc h1 h2 h3 h4 h5 hsucc
    rw [connect_success_eq t s dev svc h1 h2 h3 h4 h5]
    simp only [connectCommit, connectFinish]
    rw [if_pos hsucc]

/-- Witness for C5: the amended theorem applied to the concrete transport
whose second channel reads no data. -/
theorem read_skip_nodata_spec_witness :
    ((read_battery_levels skipTransport sLR).status = .SUCCESS ∧
      dictGet (read_battery_levels skipTransport sLR).batteries 2 = none) ∧
    (connect skipTransport initialState).state.batteries =
      (read_battery_levels skipTransport (connectedState "AA:BB"
        (batteryChars twoCharService)
        (initChannels (batteryChars twoCharService)))).batteries := by
  refine ⟨read_skip_nodata_spec.1 skipTransport sLR 2 "Right" rfl (by decide)
      ?_ ?_,
    read_skip_nodata_spec.2 skipTransport initialState "AA:BB" twoCharService
      rfl rfl (by decide) (by decide) (fun c _ => rfl) (by decide)⟩
  · intro c hc msg
    fin_cases hc <;> simp [skipTransport]
  · intro c hc
    fin_cases hc <;> simp [skipTransport]

/-- C6: the notification handler updates only the Battery Channel whose
handle matches the notification's sender (storing the normalised byte
under the matching characteristic's description), leaves every other
channel's binding unchanged, and leaves the state entirely unchanged when
the sender's handle is not part of the current session. -/
theorem notification_frame_spec :
    (∀ (s : MonitorState) (sender : Nat) (data : List Nat) (k : Nat),
        k ≠ sender →
        dictGet (battery_level_changed_handler s sender data).1.batteries k =
          dictGet s.batteries k) ∧
    (∀ (s : MonitorState) (sender b : Nat) (bs : List Nat) (d : String),
        findDesc s.battery_characteristics sender = some d →
        dictGet (battery_level_changed_handler s sender (b :: bs)).1.batteries
          sender = some ⟨d, normalizeLevel b⟩) ∧
    (∀ (s : MonitorState) (sender : Nat) (data : List Nat),
        findDesc s.battery_characteristics sender = none →
        (battery_level_changed_handler s sender data).1 = s) := by
  refine ⟨?_, ?_, ?_⟩
  · intro s sender data k hk
    rcases data with _ | ⟨b, bs⟩
    · rfl
    · rcases hfind : findDesc s.battery_characteristics sender with _ | d
      · simp [battery_level_changed_handler, hfind]
      · simp [battery_level_changed_handler, hfind,
          dictGet_dictInsert_ne _ _ _ _ hk]
  · intro s sender b bs d hfind
    simp [battery_level_changed_handler, hfind, dictGet_dictInsert_self]
  · intro s sender data hfind
    rcases data with _ | ⟨b, bs⟩
    · rfl
    · simp [battery_level_changed_handler, hfind]

/-- Witness for C6: the spec's Left/Right scenario — a notification for the
"Right" handle with byte 45 sets Right to 45 and leaves Left unchanged —
and a notification arriving after disconnect is ignored. -/
theorem notification_frame_spec_witness :
    dictGet (battery_level_changed_handler sLR 2 [45]).1.batteries 1 =
      dictGet sLR.batteries 1 ∧
    dictGet (battery_level_changed_handler sLR 2 [45]).1.batteries 2 =
      some ⟨"Right", normalizeLevel 45⟩ ∧
    (battery_level_changed_handler (disconnect sLR) 2 [45]).1 = disconnect sLR := by
  exact ⟨notification_frame_spec.1 sLR 2 [45] 1 (by decide),
    notification_frame_spec.2.1 sLR 2 45 [] "Right" (by decide),
    notification_frame_spec.2.2 (disconnect sLR) 2 [45] (by decide)⟩

/-- C7: on a fully successful connect the channel set created before the
initial bulk read has exactly one channel per battery-level characteristic
reported by the transport, each at level −1; and when that initial read
does not succeed, connect still returns `CONNECTED` with the channels kept
at −1. -/
theorem connect_success_spec (t : Transport) (s : MonitorState) (dev : String)
    (svc : GattService)
    (h1 : t.findDevice = some dev) (h2 : t.connectOk = true)
    (h3 : findBatteryService t.services = some svc)
    (h4 : ¬ batteryChars svc = [])
    (h5 : ∀ c ∈ batteryChars svc, t.subscribe c.1 = Except.ok ())
    (h6 : ((batteryChars svc).map Prod.fst).Nodup) :
    (connect t s).result.status = ConnectStatus.CONNECTED ∧
    initChannels (batteryChars svc) =
      (batteryChars svc).map (fun c => (c.1, BatteryStatus.mk c.2 (-1))) ∧
    (initChannels (batteryChars svc)).length = (batteryChars svc).length ∧
    (∀ p ∈ initChannels (batteryChars svc), p.2.level = -1) ∧
    ((read_battery_levels t (connectedState dev (batteryChars svc)
        (initChannels (batteryChars svc)))).status ≠ .SUCCESS →
      (connect t s).state =
        connectedState dev (batteryChars svc)
          (initChannels (batteryChars svc))) := by
  have hmap : initChannels (batteryChars svc) =
      (batteryChars svc).map fun c => (c.1, BatteryStatus.mk c.2 (-1)) := by
    unfold initChannels
    rw [initChannelsFrom_eq_append (batteryChars svc) [] (by simp) h6]
    simp
  have hconn := connect_success_eq t s dev svc h1 h2 h3 h4 h5
  refine ⟨by rw [hconn], hmap, by rw [hmap]; simp, ?_, ?_⟩
  · intro p hp
    rcases mem_initChannelsFrom (batteryChars svc) [] p hp with hmem | hlv
    · simp at hmem
    · exact hlv
  · intro hfail
    rw [hconn]
    simp only [connectCommit, connectFinish]
    rw [if_neg hfail]

/-- Witness for C7: the theorem applied to the Left/Right transport whose
initial read raises, so the session stays connected with both channels at
level −1. -/
theorem connect_success_spec_witness :
    (connect okTransportLR initialState).result.status =
        ConnectStatus.CONNECTED ∧
    (connect okTransportLR initialState).state =
      connectedState "AA:BB" (batteryChars twoCharService)
        (initChannels (batteryChars twoCharService)) := by
  have h := connect_success_spec okTransportLR initialState "AA:BB"
    twoCharService rfl rfl (by decide) (by decide) (fun c _ => rfl) (by decide)
  exact ⟨h.1, h.2.2.2.2 (by decide)⟩

/-- C8: the level normalisation shared by the notification handler and
`read_battery_levels` maps the raw byte 255 to −1 and every other byte
value to itself unchanged; the handler stores the normalised first byte
for the matching channel, and a bulk read of a single channel returning
byte `b` yields exactly that channel at the normalised level. -/
theorem normalize_level_spec :
    normalizeLevel 255 = -1 ∧
    (∀ v : Nat, v ≠ 255 → normalizeLevel v = (v : Int)) ∧
    (∀ (s : MonitorState) (sender b : Nat) (bs : List Nat) (d : String),
        findDesc s.battery_characteristics sender = some d →
        dictGet (battery_level_changed_handler s sender (b :: bs)).1.batteries
          sender = some ⟨d, normalizeLevel b⟩) ∧
    (∀ (t : Transport) (s : MonitorState) (h b : Nat) (d : String)
        (bs : List Nat),
        isConnected s = true →
        s.battery_characteristics = [(h, d)] →
        t.readGatt h = .val (b :: bs) →
        read_battery_levels t s = ⟨.SUCCESS, [(h, ⟨d, normalizeLevel b⟩)], ""⟩) := by
  refine ⟨rfl, ?_, ?_, ?_⟩
  · intro v hv
    simp [normalizeLevel, hv]
  · intro s sender b bs d hfind
    simp [battery_level_changed_handler, hfind, dictGet_dictInsert_self]
  · intro t s h b d bs hc hchars hread
    simp [read_battery_levels, hc, hchars, readLevelsLoop, hread, dictInsert]

/-- Witness for C8: normalisation evaluated at 100 and 255, and the
handler and read paths evaluated on concrete sessions. -/
theorem normalize_level_spec_witness :
    normalizeLevel 100 = 100 ∧
    dictGet (battery_level_changed_handler sLR 2 [255]).1.batteries 2 =
      some ⟨"Right", normalizeLevel 255⟩ ∧
    read_battery_levels read255Transport oneChanState =
      ⟨.SUCCESS, [(7, ⟨"Main", normalizeLevel 255⟩)], ""⟩ := by
  exact ⟨normalize_level_spec.2.1 100 (by decide),
    normalize_level_spec.2.2.1 sLR 2 255 [] "Right" (by decide),
    normalize_level_spec.2.2.2 read255Transport oneChanState 7 255 "Main" []
      rfl rfl rfl⟩

/-- C9, evaluation at the failing input: the scheduler armed by
`_start_reconnect_timer` with no root window (the `--device-name` /
`--device-id` auto-start flow) counts down from 300 and issues a connect
attempt; when that attempt returns a non-`CONNECTED` outcome the counter
is reset to the full interval and the timer flag stays set, but no
`timer_tick` remains scheduled (`pendingTicks = 0`), so the countdown
never resumes — while the same run with a root window keeps one scheduled
tick.  Idempotent start and the permanent halt on `CONNECTED` are also
evaluated. -/
theorem reconnect_windowless_retry_halt :
    start_reconnect_timer (start_reconnect_timer appInitState) =
      start_reconnect_timer appInitState ∧
    (start_reconnect_timer appInitState).pendingTicks = 1 ∧
    timer_tick true (.result .CONNECTED) ⟨1, true, 1⟩ = ⟨0, false, 0⟩ ∧
    timer_tick true (.result .DEVICE_NOT_FOUND) ⟨1, true, 1⟩ =
      ⟨RECONNECT_INTERVAL, true, 1⟩ ∧
    Nat.iterate (timer_tick false (.result .DEVICE_NOT_FOUND)) 300
      (start_reconnect_timer appInitState) = ⟨RECONNECT_INTERVAL, true, 0⟩ := by
  set_option maxRecDepth 4000 in decide

/-- C10: device enumeration invokes the completion callback exactly once
whether the scan succeeds or raises; on success the device callback is
invoked exactly for the discovered devices with a non-empty name, in
discovery order; on error no device callback is invoked. -/
theorem list_paired_devices_spec :
    ∀ scan : Except String (List (String × String)),
      (list_paired_devices scan).2 = 1 ∧
      (∀ devs, scan = .ok devs →
          ((list_paired_devices scan).1 =
              devs.filter (fun dv => dv.1 != "") ∧
            ∀ dv, dv ∈ (list_paired_devices scan).1 ↔
              (dv ∈ devs ∧ dv.1 ≠ ""))) ∧
      (∀ e, scan = .error e → (list_paired_devices scan).1 = []) := by
  intro scan
  refine ⟨?_, ?_, ?_⟩
  · rcases scan with e | devs <;> rfl
  · intro devs hok
    subst hok
    refine ⟨rfl, ?_⟩
    intro dv
    simp [list_paired_devices, List.mem_filter, bne_iff_ne]
  · intro e herr
    subst herr
    rfl

/-- Witness for C10: the theorem applied to a concrete successful scan
(one named, one unnamed device) and to a failing scan. -/
theorem list_paired_devices_spec_witness :
    (list_paired_devices (.ok [("Keyboard", "aa"), ("", "bb")])).1 =
      [("Keyboard", "aa")] ∧
    (list_paired_devices (.error "scan failed")).1 = [] ∧
    (list_paired_devices (.error "scan failed")).2 = 1 := by
  refine ⟨?_, ?_, ?_⟩
  · exact (((list_paired_devices_spec
      (.ok [("Keyboard", "aa"), ("", "bb")])).2.1 _ rfl).1).trans (by decide)
  · exact (list_paired_devices_spec (.error "scan failed")).2.2 "scan failed" rfl
  · exact (list_paired_devices_spec (.error "scan failed")).1

end ZmkBattery
